import Mathlib

/-!
Verification of the file-download service (badnails/cuet-moh-main).

The backend entrypoint `src/index.ts` is not present among the provided
sources; its behaviour is documented in the repository AI overview and in
the specification.  Definitions for the backend (storage gateway, config
loader, rate limiter, route handlers, error boundary) are therefore
modelled from the spec, as marked on each definition.  The frontend API
layer (`frontend/src/lib/api.ts`) and the Prometheus middleware
(`src/metrics.ts`) are present and are embedded directly from the source.
-/

namespace Delineate

/-! ## Storage gateway -/

/-- Outcome classes of a HeadObject probe against the object store. -/
inductive ProbeError where
  | notFound
  | authFailure
  | networkFailure
  | timedOut
deriving DecidableEq, Repr

/-- Result of probing the object store for one object. -/
inductive ProbeResult where
  | ok (size : Nat)
  | err (e : ProbeError)
deriving DecidableEq, Repr

/-- Overall health verdict of the storage gateway. -/
inductive HealthOutcome where
  | healthy
  | unhealthy
deriving DecidableEq, Repr

/-- Modelled from the spec: `sanitizeS3Key` in the missing backend
`src/index.ts` maps a numeric fileId to the safe key
`downloads/{fileId}.zip` (only digits enter the template). -/
def sanitizeS3Key (fileId : Nat) : String :=
  "downloads/" ++ toString fileId ++ ".zip"

/-- AvailabilityResult as described by the spec data model:
fileId, available flag, optional storage key, optional size. -/
structure AvailabilityResult where
  fileId : Nat
  available : Bool
  s3Key : Option String
  size : Option Nat
deriving DecidableEq, Repr

/-- Modelled from the spec: `checkS3Availability` in the missing backend
`src/index.ts`.  When the bucket name is empty the gateway is in mock
mode: availability is the pure function `fileId % 7 == 0` and the probe
result (the network) is never consulted.  Otherwise the HeadObject probe
decides existence and size.  The concrete size reported for an available
mock file is unspecified by the spec; `fileId * 1000` stands in for it. -/
def checkS3Availability (bucketName : String) (fileId : Nat) (probe : ProbeResult) :
    AvailabilityResult :=
  if bucketName = "" then
    { fileId := fileId
    , available := fileId % 7 == 0
    , s3Key := some (sanitizeS3Key fileId)
    , size := if fileId % 7 == 0 then some (fileId * 1000) else none }
  else
    match probe with
    | .ok size =>
        { fileId := fileId, available := true
        , s3Key := some (sanitizeS3Key fileId), size := some size }
    | .err _ =>
        { fileId := fileId, available := false
        , s3Key := some (sanitizeS3Key fileId), size := none }

/-- Modelled from the spec: `checkS3Health` in the missing backend
`src/index.ts`.  Mock mode (empty bucket) is always healthy; otherwise
the marker probe decides: success or object-not-found is healthy, any
other failure (auth, network, timeout) is unhealthy. -/
def checkS3Health (bucketName : String) (probe : ProbeResult) : HealthOutcome :=
  if bucketName = "" then .healthy
  else
    match probe with
    | .ok _ => .healthy
    | .err .notFound => .healthy
    | .err _ => .unhealthy

/-- The probe succeeded or failed with object-not-found. -/
def probeOkOrNotFound : ProbeResult → Bool
  | .ok _ => true
  | .err .notFound => true
  | .err _ => false

/-! ## Health route -/

/-- Component-level checks of the health body, from the frontend type
`HealthResponse` in `frontend/src/lib/api.ts`. -/
structure HealthChecks where
  storage : String
deriving DecidableEq, Repr

/-- Health body: `status` is healthy or unhealthy, `checks.storage` is ok
or error, from `frontend/src/lib/api.ts`. -/
structure HealthResponse where
  status : String
  checks : HealthChecks
deriving DecidableEq, Repr

/-- Modelled from the spec: the `GET /health` route handler in the
missing backend `src/index.ts`: 200 with a healthy body when the storage
gateway reports healthy, 503 with an unhealthy body otherwise. -/
def healthRoute (gw : HealthOutcome) : Nat × HealthResponse :=
  match gw with
  | .healthy => (200, { status := "healthy", checks := { storage := "ok" } })
  | .unhealthy => (503, { status := "unhealthy", checks := { storage := "error" } })

/-! ## Claim theorems: storage gateway and health -/

/-- Claim C1: for every positive fileId, `checkS3Availability` in mock
mode (empty bucket name) reports `available` exactly when fileId is
divisible by 7, and its result is independent of the probe (no network
call), hence identical across repeated calls. -/
theorem checkS3Availability_mock_spec (fileId : Nat) (_h : 0 < fileId)
    (p q : ProbeResult) :
    (checkS3Availability "" fileId p).available = (fileId % 7 == 0)
    ∧ checkS3Availability "" fileId p = checkS3Availability "" fileId q := by
  constructor
  · simp [checkS3Availability]
  · simp [checkS3Availability]

/-- Witness for C1 at fileId 14 and two different probe outcomes. -/
theorem checkS3Availability_mock_spec_witness :
    (checkS3Availability "" 14 (.ok 5)).available = true
    ∧ checkS3Availability "" 14 (.ok 5)
        = checkS3Availability "" 14 (.err .networkFailure) := by
  have h := checkS3Availability_mock_spec 14 (by decide) (.ok 5) (.err .networkFailure)
  exact ⟨h.1.trans (by decide), h.2⟩

/-- Claim C8: `checkS3Health` is healthy in every case in mock mode; in
real mode it is healthy exactly when the marker probe succeeds or fails
with object-not-found, and unhealthy for every other failure. -/
theorem checkS3Health_spec (bucket : String) (probe : ProbeResult) :
    (bucket = "" → checkS3Health bucket probe = .healthy)
    ∧ (bucket ≠ "" →
        (checkS3Health bucket probe = .healthy ↔ probeOkOrNotFound probe = true)) := by
  constructor
  · intro hb
    simp [checkS3Health, hb]
  · intro hb
    cases probe with
    | ok size => simp [checkS3Health, hb, probeOkOrNotFound]
    | err e => cases e <;> simp [checkS3Health, hb, probeOkOrNotFound]

/-- Witness for C8: mock mode is healthy even under a network failure,
and a real bucket with an auth failure is not healthy. -/
theorem checkS3Health_spec_witness :
    checkS3Health "" (.err .networkFailure) = .healthy
    ∧ ¬ checkS3Health "bkt" (.err .authFailure) = .healthy := by
  refine ⟨(checkS3Health_spec "" (.err .networkFailure)).1 rfl, ?_⟩
  intro hcontra
  have h := ((checkS3Health_spec "bkt" (.err .authFailure)).2 (by decide)).mp hcontra
  simp [probeOkOrNotFound] at h

/-- Claim C3: `GET /health` returns 200 with the healthy body when the
gateway is healthy and 503 with the unhealthy body otherwise; the
overall status is healthy only if the storage check is ok, and the 200
code coincides with the healthy status. -/
theorem healthRoute_spec (gw : HealthOutcome) :
    (gw = .healthy →
      healthRoute gw = (200, { status := "healthy", checks := { storage := "ok" } }))
    ∧ (gw = .unhealthy →
      healthRoute gw = (503, { status := "unhealthy", checks := { storage := "error" } }))
    ∧ ((healthRoute gw).2.status = "healthy" → (healthRoute gw).2.checks.storage = "ok")
    ∧ ((healthRoute gw).1 = 200 ↔ (healthRoute gw).2.status = "healthy") := by
  cases gw <;> refine ⟨?_, ?_, ?_, ?_⟩ <;> simp [healthRoute]

/-- Witness for C3 at a healthy gateway. -/
theorem healthRoute_spec_witness :
    healthRoute .healthy = (200, { status := "healthy", checks := { storage := "ok" } }) :=
  (healthRoute_spec .healthy).1 rfl

/-! ## Rate limiting middleware -/

/-- Configuration of the rate limiter: window length in milliseconds
and maximum number of requests per window. -/
structure RateLimitConfig where
  windowMs : Nat
  maxRequests : Nat
deriving DecidableEq, Repr

/-- Per-client window state: start of the current window and the number
of requests counted inside it. -/
structure ClientWindow where
  windowStart : Nat
  count : Nat
deriving DecidableEq, Repr

/-- Decision of the rate limiter for one request: pass the request on,
or reject it with an HTTP status and a retry-after-style header value. -/
inductive RLDecision where
  | allow
  | reject (status : Nat) (retryAfterMs : Nat)
deriving DecidableEq, Repr

/-- Look up the window state of a client in the counter table. -/
def rlFind (client : String) : List (String × ClientWindow) → Option ClientWindow
  | [] => none
  | (c, w) :: rest => if c = client then some w else rlFind client rest

/-- Replace or insert the window state of a client in the counter table. -/
def rlSet (client : String) (w : ClientWindow) :
    List (String × ClientWindow) → List (String × ClientWindow)
  | [] => [(client, w)]
  | (c, w0) :: rest =>
      if c = client then (client, w) :: rest else (c, w0) :: rlSet client w rest

/-- Modelled from the spec: the rate limiting middleware of the missing
backend `src/index.ts` (hono-rate-limiter over a fixed per-client
window).  A request inside the current window increments the counter
while it is below the threshold; at the threshold it is rejected with
429 and a retry-after header; a request after the window end starts a
fresh window whose counter holds only that request. -/
def rateLimit (cfg : RateLimitConfig) (now : Nat) (client : String)
    (st : List (String × ClientWindow)) :
    RLDecision × List (String × ClientWindow) :=
  match rlFind client st with
  | some w =>
      if now < w.windowStart + cfg.windowMs then
        if w.count < cfg.maxRequests then
          (.allow, rlSet client { windowStart := w.windowStart, count := w.count + 1 } st)
        else
          (.reject 429 (w.windowStart + cfg.windowMs - now), st)
      else
        (.allow, rlSet client { windowStart := now, count := 1 } st)
  | none => (.allow, rlSet client { windowStart := now, count := 1 } st)

/-- Looking a client up after setting its window finds the set window. -/
theorem rlFind_rlSet (client : String) (w : ClientWindow)
    (st : List (String × ClientWindow)) :
    rlFind client (rlSet client w st) = some w := by
  induction st with
  | nil => simp [rlFind, rlSet]
  | cons head rest ih =>
      obtain ⟨c, w0⟩ := head
      by_cases hc : c = client
      · simp [rlFind, rlSet, hc]
      · simp [rlFind, rlSet, hc, ih]

/-- Claim C2: when a client already has `maxRequests` requests counted
inside the current window, the next request from that client inside the
window is rejected with 429 and a positive retry-after value, and the
first request after the window elapses is allowed with the counter
restarted at exactly that one request. -/
theorem rateLimit_threshold_and_reset (cfg : RateLimitConfig) (now : Nat)
    (client : String) (st : List (String × ClientWindow)) (w : ClientWindow)
    (hw : rlFind client st = some w)
    (hfull : w.count = cfg.maxRequests)
    (hin : now < w.windowStart + cfg.windowMs) :
    (rateLimit cfg now client st).1
      = .reject 429 (w.windowStart + cfg.windowMs - now)
    ∧ 0 < w.windowStart + cfg.windowMs - now
    ∧ (∀ later, w.windowStart + cfg.windowMs ≤ later →
        (rateLimit cfg later client st).1 = .allow
        ∧ rlFind client (rateLimit cfg later client st).2
            = some { windowStart := later, count := 1 }) := by
  refine ⟨?_, ?_, ?_⟩
  · simp [rateLimit, hw, hin, hfull]
  · omega
  · intro later hlater
    have hnot : ¬ later < w.windowStart + cfg.windowMs := by omega
    constructor
    · simp [rateLimit, hw, hnot]
    · simp [rateLimit, hw, hnot, rlFind_rlSet]

/-- Witness for C2: with a window of 60000 ms and a threshold of 2, a
client whose counter is full is rejected at time 10 and allowed again at
time 60000 with a fresh counter of one. -/
theorem rateLimit_threshold_and_reset_witness :
    (rateLimit { windowMs := 60000, maxRequests := 2 } 10 "1.2.3.4"
        [("1.2.3.4", { windowStart := 0, count := 2 })]).1
      = .reject 429 59990
    ∧ (rateLimit { windowMs := 60000, maxRequests := 2 } 60000 "1.2.3.4"
        [("1.2.3.4", { windowStart := 0, count := 2 })]).1 = .allow := by
  have h := rateLimit_threshold_and_reset
    { windowMs := 60000, maxRequests := 2 } 10 "1.2.3.4"
    [("1.2.3.4", { windowStart := 0, count := 2 })]
    { windowStart := 0, count := 2 } (by decide) rfl (by decide)
  exact ⟨h.1, (h.2.2 60000 (by decide)).1⟩

/-! ## Config loader -/

/-- Raw environment input to the config loader: each field either absent
or the raw string from the environment. -/
structure RawEnv where
  port : Option String
  s3Region : Option String
  s3Endpoint : Option String
  s3Bucket : Option String
  requestTimeoutMs : Option String
  rateLimitWindowMs : Option String
  rateLimitMaxRequests : Option String
  corsOrigins : Option String
  downloadDelayEnabled : Option String
  downloadDelayMinMs : Option String
  downloadDelayMaxMs : Option String
deriving DecidableEq, Repr

/-- Validated settings, from the spec data model: port, storage fields,
timeout, rate-limit window and threshold, origins, delay toggle and
bounds.  An empty bucket name means mock mode. -/
structure Settings where
  port : Nat
  s3Region : String
  s3Endpoint : Option String
  s3Bucket : String
  requestTimeoutMs : Nat
  rateLimitWindowMs : Nat
  rateLimitMaxRequests : Nat
  corsOrigins : String
  downloadDelayEnabled : Bool
  downloadDelayMinMs : Nat
  downloadDelayMaxMs : Nat
deriving DecidableEq, Repr

/-- Accumulating decimal parser over the characters of a field value. -/
def parseNatAux : List Char → Nat → Option Nat
  | [], acc => some acc
  | c :: rest, acc =>
      if c.isDigit then parseNatAux rest (acc * 10 + (c.toNat - 48)) else none

/-- Numeric parse of an environment value, modelling the coercion done
by the schema: a non-empty all-digit string parses, anything else is
rejected. -/
def parseNatString (s : String) : Option Nat :=
  match s.data with
  | [] => none
  | l => parseNatAux l 0

/-- Violations of a numeric field: a present value must parse as a
number and respect the field minimum; an absent value is defaulted. -/
def checkNat (name : String) (field : Option String) (minVal : Nat) :
    List (String × String) :=
  match field with
  | none => []
  | some s =>
      match parseNatString s with
      | some n => if minVal ≤ n then [] else [(name, "value below minimum")]
      | none => [(name, "expected a number")]

/-- Violations of a boolean-flag field. -/
def checkBool (name : String) (field : Option String) : List (String × String) :=
  match field with
  | none => []
  | some s => if s = "true" ∨ s = "false" then [] else [(name, "expected a boolean")]

/-- Numeric value of a field once validation passed; the default is used
for an absent field. -/
def valNat (field : Option String) (default : Nat) : Nat :=
  match field with
  | none => default
  | some s => (parseNatString s).getD default

/-- Boolean value of a flag once validation passed. -/
def valBool (field : Option String) (default : Bool) : Bool :=
  match field with
  | none => default
  | some s => if s = "true" then true else if s = "false" then false else default

/-- Modelled from the spec: the aggregated violation list computed by
`EnvSchema` in the missing backend `src/index.ts`.  Field minimums
follow the documented schema (timeout at least 1000 ms, every other
numeric bound positive); defaults follow the documented defaults. -/
def envViolations (env : RawEnv) : List (String × String) :=
  checkNat "PORT" env.port 1
  ++ checkNat "REQUEST_TIMEOUT_MS" env.requestTimeoutMs 1000
  ++ checkNat "RATE_LIMIT_WINDOW_MS" env.rateLimitWindowMs 1
  ++ checkNat "RATE_LIMIT_MAX_REQUESTS" env.rateLimitMaxRequests 1
  ++ checkBool "DOWNLOAD_DELAY_ENABLED" env.downloadDelayEnabled
  ++ checkNat "DOWNLOAD_DELAY_MIN_MS" env.downloadDelayMinMs 1
  ++ checkNat "DOWNLOAD_DELAY_MAX_MS" env.downloadDelayMaxMs 1

/-- Settings assembled from a raw environment whose validation passed. -/
def settingsOf (env : RawEnv) : Settings :=
  { port := valNat env.port 3000
  , s3Region := env.s3Region.getD "us-east-1"
  , s3Endpoint := env.s3Endpoint
  , s3Bucket := env.s3Bucket.getD ""
  , requestTimeoutMs := valNat env.requestTimeoutMs 30000
  , rateLimitWindowMs := valNat env.rateLimitWindowMs 60000
  , rateLimitMaxRequests := valNat env.rateLimitMaxRequests 100
  , corsOrigins := env.corsOrigins.getD "*"
  , downloadDelayEnabled := valBool env.downloadDelayEnabled true
  , downloadDelayMinMs := valNat env.downloadDelayMinMs 1000
  , downloadDelayMaxMs := valNat env.downloadDelayMaxMs 10000 }

/-- Modelled from the spec: the config loader of the missing backend
`src/index.ts` either produces a fully validated Settings value or the
aggregated list of violations, never a partial configuration. -/
def loadConfig (env : RawEnv) : Except (List (String × String)) Settings :=
  if envViolations env = [] then .ok (settingsOf env) else .error (envViolations env)

/-- Modelled from the spec: startup binds the listener only with a fully
validated Settings value; on any violation the process aborts before
binding. -/
def serverBind (env : RawEnv) : Option Settings :=
  match loadConfig env with
  | .ok s => some s
  | .error _ => none

/-- A numeric field with no violation yields a value at or above its
minimum, provided the default respects the minimum. -/
theorem checkNat_le (name : String) (f : Option String) (minVal d : Nat)
    (h : checkNat name f minVal = []) (hd : minVal ≤ d) : minVal ≤ valNat f d := by
  cases f with
  | none => simpa [valNat] using hd
  | some s =>
      cases hs : parseNatString s with
      | none => simp [checkNat, hs] at h
      | some n =>
          simp only [checkNat, hs] at h
          split at h
          · simpa [valNat, hs] using by assumption
          · simp at h

/-- Claim C6: for every raw environment the config loader either returns
a fully validated Settings value (every numeric bound positive, timeout
at least 1000 ms) or returns violations and the listener is never bound;
in particular a non-numeric timeout aborts startup before binding. -/
theorem loadConfig_all_or_nothing (env : RawEnv) :
    ((∃ s, loadConfig env = .ok s
        ∧ 0 < s.port ∧ 1000 ≤ s.requestTimeoutMs
        ∧ 0 < s.rateLimitWindowMs ∧ 0 < s.rateLimitMaxRequests
        ∧ 0 < s.downloadDelayMinMs ∧ 0 < s.downloadDelayMaxMs)
      ∨ (∃ e, loadConfig env = .error e ∧ e ≠ [] ∧ serverBind env = none))
    ∧ (∀ t, env.requestTimeoutMs = some t → parseNatString t = none →
        serverBind env = none) := by
  constructor
  · by_cases h : envViolations env = []
    · left
      have h' := h
      simp only [envViolations, List.append_eq_nil] at h'
      obtain ⟨⟨⟨⟨⟨⟨h1, h2⟩, h3⟩, h4⟩, h5⟩, h6⟩, h7⟩ := h'
      refine ⟨settingsOf env, by simp [loadConfig, h], ?_, ?_, ?_, ?_, ?_, ?_⟩
      · have := checkNat_le "PORT" env.port 1 3000 h1 (by omega)
        simp only [settingsOf]
        omega
      · have := checkNat_le "REQUEST_TIMEOUT_MS" env.requestTimeoutMs 1000 30000
          h2 (by omega)
        simp only [settingsOf]
        omega
      · have := checkNat_le "RATE_LIMIT_WINDOW_MS" env.rateLimitWindowMs 1 60000
          h3 (by omega)
        simp only [settingsOf]
        omega
      · have := checkNat_le "RATE_LIMIT_MAX_REQUESTS" env.rateLimitMaxRequests 1 100
          h4 (by omega)
        simp only [settingsOf]
        omega
      · have := checkNat_le "DOWNLOAD_DELAY_MIN_MS" env.downloadDelayMinMs 1 1000
          h6 (by omega)
        simp only [settingsOf]
        omega
      · have := checkNat_le "DOWNLOAD_DELAY_MAX_MS" env.downloadDelayMaxMs 1 10000
          h7 (by omega)
        simp only [settingsOf]
        omega
    · right
      exact ⟨envViolations env, by simp [loadConfig, h], h,
        by simp [serverBind, loadConfig, h]⟩
  · intro t ht hbad
    have hne : envViolations env ≠ [] := by
      simp [envViolations, List.append_eq_nil, checkNat, ht, hbad]
    simp [serverBind, loadConfig, hne]

/-- Witness for C6: an environment whose timeout is the non-numeric
string abc aborts startup before binding. -/
theorem loadConfig_all_or_nothing_witness :
    serverBind { port := none, s3Region := none, s3Endpoint := none, s3Bucket := none
               , requestTimeoutMs := some "abc", rateLimitWindowMs := none
               , rateLimitMaxRequests := none, corsOrigins := none
               , downloadDelayEnabled := none, downloadDelayMinMs := none
               , downloadDelayMaxMs := none } = none :=
  (loadConfig_all_or_nothing _).2 "abc" rfl (by decide)

/-! ## Simulated download start -/

/-- Delay knobs of the download simulation: toggle and [min, max]
bounds in milliseconds. -/
structure DelayConfig where
  enabled : Bool
  minMs : Nat
  maxMs : Nat
deriving DecidableEq, Repr

/-- Modelled from the spec: `getRandomDelay` in the missing backend
`src/index.ts` draws a delay uniformly from [minMs, maxMs] when the
toggle is enabled and yields no delay otherwise; `r` stands for the
random source sample. -/
def getRandomDelay (cfg : DelayConfig) (r : Nat) : Nat :=
  if cfg.enabled then cfg.minMs + r % (cfg.maxMs - cfg.minMs + 1) else 0

/-- DownloadOutcome, from `DownloadStartResponse` in
`frontend/src/lib/api.ts`: status is completed or failed, the URL and
size are optional, the processing time and message always present. -/
structure DownloadOutcome where
  file_id : Nat
  status : String
  downloadUrl : Option String
  size : Option Nat
  processingTimeMs : Nat
  message : String
deriving DecidableEq, Repr

/-- Modelled from the spec: the `POST /v1/download/start` handler of the
missing backend `src/index.ts`.  It waits the randomized delay, then
consults the availability check: an available file yields a completed
outcome with a mock access URL and the size, anything else yields a
failed outcome with an explanatory message. -/
def downloadStart (dcfg : DelayConfig) (r : Nat) (bucket : String)
    (fileId : Nat) (probe : ProbeResult) : DownloadOutcome :=
  let delayMs := getRandomDelay dcfg r
  let avail := checkS3Availability bucket fileId probe
  if avail.available then
    { file_id := fileId
    , status := "completed"
    , downloadUrl := some ("https://storage.example.com/" ++ sanitizeS3Key fileId)
    , size := avail.size
    , processingTimeMs := delayMs
    , message := "File downloaded successfully" }
  else
    { file_id := fileId
    , status := "failed"
    , downloadUrl := none
    , size := none
    , processingTimeMs := delayMs
    , message := "File not available in storage" }

/-- An availability result that reports available carries a size. -/
theorem checkS3Availability_available_size (bucket : String) (fileId : Nat)
    (probe : ProbeResult)
    (h : (checkS3Availability bucket fileId probe).available = true) :
    (checkS3Availability bucket fileId probe).size ≠ none := by
  by_cases hb : bucket = ""
  · simp only [checkS3Availability, hb, if_pos] at h ⊢
    simp only [beq_iff_eq] at h
    simp [h]
  · cases probe with
    | ok size => simp [checkS3Availability, hb]
    | err e => simp [checkS3Availability, hb] at h

/-- Claim C4: the download-start handler waits nothing when the delay
toggle is off and a delay inside [min, max] when it is on, then returns
a completed outcome with a non-null URL and size (and a processing time
at least zero) when the file is available, and a failed outcome with an
explanatory message otherwise. -/
theorem downloadStart_spec (dcfg : DelayConfig) (r : Nat) (bucket : String)
    (fileId : Nat) (probe : ProbeResult)
    (_hpos : 0 < fileId) (hminmax : dcfg.minMs ≤ dcfg.maxMs) :
    (dcfg.enabled = false →
      (downloadStart dcfg r bucket fileId probe).processingTimeMs = 0)
    ∧ (dcfg.enabled = true →
        dcfg.minMs ≤ (downloadStart dcfg r bucket fileId probe).processingTimeMs
        ∧ (downloadStart dcfg r bucket fileId probe).processingTimeMs ≤ dcfg.maxMs)
    ∧ ((checkS3Availability bucket fileId probe).available = true →
        (downloadStart dcfg r bucket fileId probe).status = "completed"
        ∧ (downloadStart dcfg r bucket fileId probe).downloadUrl ≠ none
        ∧ (downloadStart dcfg r bucket fileId probe).size ≠ none
        ∧ 0 ≤ (downloadStart dcfg r bucket fileId probe).processingTimeMs)
    ∧ ((checkS3Availability bucket fileId probe).available = false →
        (downloadStart dcfg r bucket fileId probe).status = "failed"
        ∧ (downloadStart dcfg r bucket fileId probe).message ≠ "") := by
  refine ⟨?_, ?_, ?_, ?_⟩
  · intro hoff
    cases h : (checkS3Availability bucket fileId probe).available <;>
      simp [downloadStart, getRandomDelay, hoff, h]
  · intro hon
    have hmod : r % (dcfg.maxMs - dcfg.minMs + 1) ≤ dcfg.maxMs - dcfg.minMs :=
      Nat.le_of_lt_succ (Nat.mod_lt r (by omega))
    cases h : (checkS3Availability bucket fileId probe).available <;>
      constructor <;> simp [downloadStart, getRandomDelay, hon, h] <;> omega
  · intro hav
    refine ⟨?_, ?_, ?_, ?_⟩
    · simp [downloadStart, hav]
    · simp [downloadStart, hav]
    · simp only [downloadStart, hav, if_pos]
      exact checkS3Availability_available_size bucket fileId probe hav
    · simp
  · intro hav
    constructor <;> simp [downloadStart, hav]

/-- Witness for C4 at fileId 14 in mock mode with the delay enabled. -/
theorem downloadStart_spec_witness :
    ((downloadStart { enabled := true, minMs := 100, maxMs := 200 } 57 "" 14
        (.err .networkFailure)).status = "completed"
      ∧ (downloadStart { enabled := true, minMs := 100, maxMs := 200 } 57 "" 14
        (.err .networkFailure)).downloadUrl ≠ none
      ∧ (downloadStart { enabled := true, minMs := 100, maxMs := 200 } 57 "" 14
        (.err .networkFailure)).size ≠ none
      ∧ 0 ≤ (downloadStart { enabled := true, minMs := 100, maxMs := 200 } 57 "" 14
        (.err .networkFailure)).processingTimeMs)
    ∧ 100 ≤ (downloadStart { enabled := true, minMs := 100, maxMs := 200 } 57 "" 14
        (.err .networkFailure)).processingTimeMs := by
  have h := downloadStart_spec { enabled := true, minMs := 100, maxMs := 200 } 57 ""
    14 (.err .networkFailure) (by decide) (by decide)
  exact ⟨h.2.2.1 (by decide), (h.2.1 rfl).1⟩

/-! ## Download initiation -/

/-- Response of `POST /v1/download/initiate`, from
`DownloadInitiateResponse` in `frontend/src/lib/api.ts`. -/
structure DownloadInitiateResponse where
  jobId : String
  status : String
  totalFileIds : Nat
deriving DecidableEq, Repr

/-- Validation of the submitted file-id list: non-empty, at most
`maxItems` elements, every element positive. -/
def validFileIds (maxItems : Nat) (l : List Int) : Bool :=
  !l.isEmpty && decide (l.length ≤ maxItems) && l.all (fun i => decide (0 < i))

/-- Modelled from the spec: the `POST /v1/download/initiate` handler of
the missing backend `src/index.ts`.  `uuid` stands for the freshly
generated job identifier and `store` for whatever durable job state the
process holds (none is ever created).  A valid list is answered with the
queued response, anything else with HTTP 400. -/
def downloadInitiate (maxItems : Nat) (uuid : String) (store : List String)
    (fileIds : List Int) : Except Nat DownloadInitiateResponse × List String :=
  if validFileIds maxItems fileIds then
    (.ok { jobId := uuid, status := "queued", totalFileIds := fileIds.length }, store)
  else
    (.error 400, store)

/-- Claim C5: a valid file-id list is answered with the freshly
generated job identifier, status queued and the list length; an empty
or invalid list is answered with HTTP 400; the durable job store is
unchanged in either case. -/
theorem downloadInitiate_spec (maxItems : Nat) (uuid : String)
    (store : List String) (fileIds : List Int) :
    (validFileIds maxItems fileIds = true →
      downloadInitiate maxItems uuid store fileIds
        = (.ok { jobId := uuid, status := "queued", totalFileIds := fileIds.length },
           store))
    ∧ (validFileIds maxItems fileIds = false →
      downloadInitiate maxItems uuid store fileIds = (.error 400, store))
    ∧ (downloadInitiate maxItems uuid store fileIds).2 = store := by
  refine ⟨?_, ?_, ?_⟩
  · intro hv
    simp [downloadInitiate, hv]
  · intro hv
    simp [downloadInitiate, hv]
  · by_cases hv : validFileIds maxItems fileIds <;> simp [downloadInitiate, hv]

/-- Witness for C5 with the list [1, 2, 3]. -/
theorem downloadInitiate_spec_witness :
    downloadInitiate 100 "job-a1" [] [1, 2, 3]
      = (.ok { jobId := "job-a1", status := "queued", totalFileIds := 3 }, []) :=
  (downloadInitiate_spec 100 "job-a1" [] [1, 2, 3]).1 (by decide)

/-! ## Error boundary -/

/-- Failure taxonomy of the spec: validation, rate limit, timeout,
storage unavailable, unhandled. -/
inductive ErrorKind where
  | validation
  | rateLimitExceeded
  | timedOut
  | storageUnavailable
  | unhandled
deriving DecidableEq, Repr

/-- An internal failure as it reaches the boundary: its class plus the
raw exception text and stack trace that must not leak. -/
structure InternalFailure where
  kind : ErrorKind
  exceptionText : String
  stackTrace : String
deriving DecidableEq, Repr

/-- Error body, from `ErrorResponse` in `frontend/src/lib/api.ts`:
stable kind string, human message, request identifier, optional
external event identifier. -/
structure ErrorResponse where
  error : String
  message : String
  requestId : Option String
  sentryEventId : Option String
deriving DecidableEq, Repr

/-- Event handed to the external error-reporting sink; this is the only
place internal detail may travel. -/
structure SinkEvent where
  eventId : String
  detail : String
deriving DecidableEq, Repr

/-- Stable kind string of each failure class, named after the taxonomy
of the spec. -/
def errorKindString : ErrorKind → String
  | .validation => "ValidationError"
  | .rateLimitExceeded => "RateLimitExceeded"
  | .timedOut => "Timeout"
  | .storageUnavailable => "StorageUnavailable"
  | .unhandled => "UnhandledFailure"

/-- Fixed human-readable message of each failure class. -/
def errorKindMessage : ErrorKind → String
  | .validation => "Invalid request input"
  | .rateLimitExceeded => "Too many requests"
  | .timedOut => "Request timed out"
  | .storageUnavailable => "Storage backend unavailable"
  | .unhandled => "An unexpected error occurred"

/-- Modelled from the spec: the error/trace correlation boundary of the
missing backend `src/index.ts` (the global onError handler).  It shapes
the uniform JSON body from the failure class and the request identifier
and forwards the internal detail only to the external sink. -/
def handleFailure (f : InternalFailure) (requestId : String)
    (sinkEventId : Option String) : ErrorResponse × Option SinkEvent :=
  ({ error := errorKindString f.kind
   , message := errorKindMessage f.kind
   , requestId := some requestId
   , sentryEventId := sinkEventId },
   sinkEventId.map fun id =>
     { eventId := id, detail := f.exceptionText ++ "\n" ++ f.stackTrace })

/-- Claim C7: every shaped error body carries the stable kind string, a
non-empty human message and the request identifier, and the body is a
function of the failure class alone: two failures of the same class with
different exception text and stack traces shape identical bodies, so no
raw exception detail reaches the body. -/
theorem handleFailure_spec (f : InternalFailure) (requestId : String)
    (sinkEventId : Option String) :
    (handleFailure f requestId sinkEventId).1.error = errorKindString f.kind
    ∧ (handleFailure f requestId sinkEventId).1.message = errorKindMessage f.kind
    ∧ errorKindMessage f.kind ≠ ""
    ∧ (handleFailure f requestId sinkEventId).1.requestId = some requestId
    ∧ (∀ g : InternalFailure, g.kind = f.kind →
        (handleFailure g requestId sinkEventId).1
          = (handleFailure f requestId sinkEventId).1) := by
  refine ⟨rfl, rfl, ?_, rfl, ?_⟩
  · cases h : f.kind <;> simp [errorKindMessage]
  · intro g hg
    simp [handleFailure, hg]

/-- Witness for C7: two unhandled failures with different stack traces
shape the same body. -/
theorem handleFailure_spec_witness :
    (handleFailure { kind := .unhandled, exceptionText := "boom"
                   , stackTrace := "at main" } "req-1" (some "evt-1")).1
      = (handleFailure { kind := .unhandled, exceptionText := "kaput"
                       , stackTrace := "at s3" } "req-1" (some "evt-1")).1 :=
  (handleFailure_spec { kind := .unhandled, exceptionText := "kaput"
                      , stackTrace := "at s3" } "req-1" (some "evt-1")).2.2.2.2
    { kind := .unhandled, exceptionText := "boom", stackTrace := "at main" } rfl

/-! ## Frontend fetch wrapper, from `frontend/src/lib/api.ts` -/

/-- Projection of a parsed JSON response body onto the fields the
wrapper reads (the `ErrorResponse` fields); each field is absent or a
string.  A field holding the empty string is distinct from an absent
field, matching the JavaScript distinction between an empty value and
an undefined one. -/
structure ParsedBody where
  message : Option String
  requestId : Option String
  sentryEventId : Option String
deriving DecidableEq, Repr

/-- An HTTP response as `fetchWithTracing` observes it: the ok flag, the
status code, and the body when `response.json()` parses (none when the
JSON parse rejects). -/
structure HttpResponse where
  ok : Bool
  status : Nat
  body : Option ParsedBody
deriving DecidableEq, Repr

/-- The `ApiError` thrown by the wrapper, from `frontend/src/lib/api.ts`:
message, HTTP status, and the identifiers copied from the error body. -/
structure ApiError where
  message : String
  status : Nat
  requestId : Option String
  sentryEventId : Option String
deriving DecidableEq, Repr

/-- How one call of the wrapper ends: a normal return of the parsed
body, a thrown ApiError, or a thrown non-ApiError when the body of an
ok response fails to parse. -/
inductive FetchOutcome where
  | success (body : ParsedBody)
  | failure (e : ApiError)
  | parseFailure
deriving DecidableEq, Repr

/-- JavaScript logical-or on a possibly absent string: the empty string
counts as falsy and falls through to the fallback. -/
def jsOrElse (s : Option String) (fallback : String) : String :=
  match s with
  | some v => if v = "" then fallback else v
  | none => fallback

/-- The fetch wrapper `fetchWithTracing` of `frontend/src/lib/api.ts`.
An ok response returns its parsed body (`withSpan` returns the inner
result unchanged); an ok response whose JSON rejects propagates the
parse failure; a non-ok response parses the body as an error payload,
falling back to the object with message Unknown error when the parse
rejects, and throws an ApiError built with the JavaScript logical-or
over the message and the copied identifiers. -/
def fetchWithTracing (r : HttpResponse) : FetchOutcome :=
  if r.ok then
    match r.body with
    | some b => .success b
    | none => .parseFailure
  else
    let errorData : ParsedBody :=
      match r.body with
      | some b => b
      | none => { message := some "Unknown error", requestId := none
                , sentryEventId := none }
    .failure
      { message := jsOrElse errorData.message ("HTTP " ++ toString r.status)
      , status := r.status
      , requestId := errorData.requestId
      , sentryEventId := errorData.sentryEventId }

/-- Counterexample for C9: an ok response whose body fails to parse
does not return the parsed JSON body normally, although `response.ok`
holds, so the stated "if and only if response.ok" is too strong. -/
theorem fetchWithTracing_ok_unparsable_counterexample :
    ({ ok := true, status := 200, body := none } : HttpResponse).ok = true
    ∧ fetchWithTracing { ok := true, status := 200, body := none }
        = FetchOutcome.parseFailure
    ∧ ¬ ∃ b, fetchWithTracing { ok := true, status := 200, body := none }
        = FetchOutcome.success b := by
  refine ⟨rfl, rfl, ?_⟩
  rintro ⟨b, hb⟩
  simp [fetchWithTracing] at hb

/-- Claim C9 (amended): the wrapper returns the parsed JSON body
normally exactly when `response.ok` holds and the body parses; a non-ok
response always throws an ApiError whose status is the response status,
whose message is the error body message when it is present and
non-empty, Unknown error when the body cannot be parsed, and
HTTP status when the body parses without a non-empty message, and whose
requestId and sentryEventId are copied from the error body when it
parses. -/
theorem fetchWithTracing_spec (r : HttpResponse) :
    (r.ok = true → ∀ b, r.body = some b → fetchWithTracing r = .success b)
    ∧ (r.ok = true → r.body = none → fetchWithTracing r = .parseFailure)
    ∧ (r.ok = false →
        ∃ e, fetchWithTracing r = .failure e
          ∧ e.status = r.status
          ∧ (r.body = none →
              e.message = "Unknown error"
              ∧ e.requestId = none ∧ e.sentryEventId = none)
          ∧ (∀ b, r.body = some b →
              e.requestId = b.requestId
              ∧ e.sentryEventId = b.sentryEventId
              ∧ (∀ m, b.message = some m → m ≠ "" → e.message = m)
              ∧ ((b.message = none ∨ b.message = some "") →
                  e.message = "HTTP " ++ toString r.status))) := by
  refine ⟨?_, ?_, ?_⟩
  · intro hok b hb
    simp [fetchWithTracing, hok, hb]
  · intro hok hb
    simp [fetchWithTracing, hok, hb]
  · intro hok
    cases hb : r.body with
    | none =>
        refine ⟨{ message := "Unknown error", status := r.status
                , requestId := none, sentryEventId := none },
                ?_, rfl, ?_, ?_⟩
        · simp [fetchWithTracing, hok, hb, jsOrElse]
        · intro _
          exact ⟨rfl, rfl, rfl⟩
        · intro b hcontra
          exact absurd hcontra (by simp)
    | some b =>
        refine ⟨{ message := jsOrElse b.message ("HTTP " ++ toString r.status)
                , status := r.status, requestId := b.requestId
                , sentryEventId := b.sentryEventId },
                ?_, rfl, ?_, ?_⟩
        · simp [fetchWithTracing, hok, hb]
        · intro hcontra
          exact absurd hcontra (by simp)
        · intro b0 hb0
          cases hb0
          refine ⟨rfl, rfl, ?_, ?_⟩
          · intro m hm hne
            simp [jsOrElse, hm, hne]
          · rintro (hm | hm) <;> simp [jsOrElse, hm]

/-- Witness for C9: an ok response with a parsed body returns that body,
and a 404 whose body carries a message and a request identifier throws
the matching ApiError. -/
theorem fetchWithTracing_spec_witness :
    fetchWithTracing
        { ok := true, status := 200
        , body := some { message := none, requestId := none, sentryEventId := none } }
      = FetchOutcome.success
          { message := none, requestId := none, sentryEventId := none }
    ∧ fetchWithTracing
        { ok := false, status := 404
        , body := some { message := some "File not found"
                       , requestId := some "req-9", sentryEventId := none } }
      = FetchOutcome.failure
          { message := "File not found", status := 404
          , requestId := some "req-9", sentryEventId := none } := by
  constructor
  · exact (fetchWithTracing_spec _).1 rfl _ rfl
  · obtain ⟨e, he, hst, -, hcopy⟩ := (fetchWithTracing_spec
      { ok := false, status := 404
      , body := some { message := some "File not found"
                     , requestId := some "req-9", sentryEventId := none } }).2.2 rfl
    obtain ⟨hrid, hsid, hmsg, -⟩ := hcopy _ rfl
    have hm := hmsg "File not found" rfl (by decide)
    rw [he]
    have : e = { message := "File not found", status := 404
               , requestId := some "req-9", sentryEventId := none } := by
      cases e
      simp_all
    rw [this]

/-! ## Prometheus HTTP middleware, from `src/metrics.ts` -/

/-- Label set of the HTTP metrics: method, path, and status rendered as
a string, matching the String conversion in the source. -/
structure Labels where
  method : String
  path : String
  status : String
deriving DecidableEq, Repr

/-- The three HTTP metrics touched by the middleware: the
active-requests gauge and, as observation lists, the labeled request
counter and the labeled duration histogram (the source records the
elapsed time divided by 1000; the observation is kept in elapsed
milliseconds here to stay inside the integers). -/
structure MetricsState where
  httpActiveRequests : Int
  httpRequestsTotal : List Labels
  httpRequestDuration : List (Labels × Nat)
deriving DecidableEq, Repr

/-- What the middleware reads back from the completed response:
`c.req.method`, the pathname of `c.req.url`, and `c.res.status`. -/
structure ResponseInfo where
  method : String
  path : String
  status : Nat
deriving DecidableEq, Repr

/-- Labels derived from the final response, with the status stringified
as in the source. -/
def labelsOf (r : ResponseInfo) : Labels :=
  { method := r.method, path := r.path, status := toString r.status }

/-- The `httpMiddleware` of `src/metrics.ts`: increment the gauge, await
the downstream handler, then record one observation in the counter and
one in the histogram under the final response labels and decrement the
gauge.  `start` and `stop` are the clock readings around the handler;
`next` is the downstream handler as a transformer of the metric state
producing the final response. -/
def httpMiddleware (next : MetricsState → MetricsState × ResponseInfo)
    (start stop : Nat) (st : MetricsState) : MetricsState × ResponseInfo :=
  let st1 : MetricsState := { st with httpActiveRequests := st.httpActiveRequests + 1 }
  let st2 := (next st1).1
  let res := (next st1).2
  let l := labelsOf res
  ({ httpActiveRequests := st2.httpActiveRequests - 1
   , httpRequestsTotal := l :: st2.httpRequestsTotal
   , httpRequestDuration := (l, stop - start) :: st2.httpRequestDuration }, res)

/-- Claim C10: the downstream handler observes the gauge incremented by
one; provided the handler itself leaves the three HTTP metrics alone (as
every route handler in the source does), a normally completing request
leaves the gauge at its prior value and appends exactly one observation
with the final response labels to the request counter and exactly one to
the duration histogram. -/
theorem httpMiddleware_spec (next : MetricsState → MetricsState × ResponseInfo)
    (start stop : Nat) (st : MetricsState)
    (hact : ∀ s, (next s).1.httpActiveRequests = s.httpActiveRequests)
    (htot : ∀ s, (next s).1.httpRequestsTotal = s.httpRequestsTotal)
    (hdur : ∀ s, (next s).1.httpRequestDuration = s.httpRequestDuration) :
    (httpMiddleware next start stop st).2
      = (next { st with httpActiveRequests := st.httpActiveRequests + 1 }).2
    ∧ (httpMiddleware next start stop st).1.httpActiveRequests
        = st.httpActiveRequests
    ∧ (httpMiddleware next start stop st).1.httpRequestsTotal
        = labelsOf (httpMiddleware next start stop st).2 :: st.httpRequestsTotal
    ∧ (httpMiddleware next start stop st).1.httpRequestDuration
        = (labelsOf (httpMiddleware next start stop st).2, stop - start)
            :: st.httpRequestDuration := by
  refine ⟨rfl, ?_, ?_, ?_⟩
  · simp only [httpMiddleware, hact]
    omega
  · simp only [httpMiddleware, htot]
  · simp only [httpMiddleware, hdur]

/-- Witness for C10: a handler that touches no HTTP metric and answers
GET /health with 200 leaves the gauge at 3 and records one observation
in each metric. -/
theorem httpMiddleware_spec_witness :
    (httpMiddleware (fun s => (s, { method := "GET", path := "/health", status := 200 }))
        100 250
        { httpActiveRequests := 3, httpRequestsTotal := [], httpRequestDuration := [] }
      ).1.httpActiveRequests = 3
    ∧ (httpMiddleware (fun s => (s, { method := "GET", path := "/health", status := 200 }))
        100 250
        { httpActiveRequests := 3, httpRequestsTotal := [], httpRequestDuration := [] }
      ).1.httpRequestsTotal
        = [{ method := "GET", path := "/health", status := "200" }]
    ∧ (httpMiddleware (fun s => (s, { method := "GET", path := "/health", status := 200 }))
        100 250
        { httpActiveRequests := 3, httpRequestsTotal := [], httpRequestDuration := [] }
      ).1.httpRequestDuration
        = [({ method := "GET", path := "/health", status := "200" }, 150)] := by
  have h := httpMiddleware_spec
    (fun s => (s, { method := "GET", path := "/health", status := 200 })) 100 250
    { httpActiveRequests := 3, httpRequestsTotal := [], httpRequestDuration := [] }
    (fun s => rfl) (fun s => rfl) (fun s => rfl)
  refine ⟨h.2.1, ?_, ?_⟩
  · rw [h.2.2.1]
    rfl
  · rw [h.2.2.2]
    rfl

end Delineate
